import Mathlib

/-!
# Verification of the TreeScape Highway Plantation Visualizer front-end

Shallow embedding of `src/index.tsx`: a browser front-end that lets a user
upload an image, enter a prompt, and request an image-generation result from a
remote service. JavaScript strings are modelled by Lean strings (lists of
characters where character-level splitting matters), the DOM state by an
explicit record, the file reader and the network by environment parameters,
and the click handler by a pure function returning the new state together with
a trace of observable events.
-/

set_option autoImplicit false

namespace TreeScape

/-- A user-selected local file: its raw bytes and its media type
(JavaScript `File.type`). -/
structure JsFile where
  bytes : List Nat
  type : String
  deriving DecidableEq, Repr

/-- A value thrown or rejected in JavaScript: either an `Error` instance
carrying a `.message`, or any other value (for example the `ProgressEvent`
passed to `FileReader.onerror`, which is not an `Error` instance). -/
inductive Thrown where
  | errorInstance (message : String)
  | nonError
  deriving DecidableEq, Repr

/-- The `.message` of a thrown value, when it is an `Error` instance. -/
def thrownMessage : Thrown → Option String
  | .errorInstance m => some m
  | .nonError => none

/-- Outcome of a `FileReader.readAsDataURL` call: either `onload` fires with a
result string (modelled as a character list), or `onerror` fires. -/
inductive ReadOutcome where
  | success (chars : List Char)
  | failure
  deriving DecidableEq, Repr

/-! ## Base64 (the encoding performed by `readAsDataURL`) -/

/-- The 64-character base64 alphabet. -/
def b64Alphabet : List Char :=
  "ABCDEFGHIJKLMNOPQRSTUVWXYZabcdefghijklmnopqrstuvwxyz0123456789+/".toList

/-- The base64 digit for a 6-bit value. -/
def b64Char (n : Nat) : Char :=
  b64Alphabet.getD n 'A'

/-- Position of a character in the base64 alphabet. -/
def b64Index (c : Char) : Nat :=
  b64Alphabet.indexOf c

/-- Standard base64 encoding of a byte list, three bytes to four digits, with
`=` padding. -/
def base64EncodeList : List Nat → List Char
  | [] => []
  | [a] => [b64Char (a / 4), b64Char (a % 4 * 16), '=', '=']
  | [a, b] => [b64Char (a / 4), b64Char (a % 4 * 16 + b / 16), b64Char (b % 16 * 4), '=']
  | a :: b :: c :: rest =>
      b64Char (a / 4) :: b64Char (a % 4 * 16 + b / 16) ::
      b64Char (b % 16 * 4 + c / 64) :: b64Char (c % 64) :: base64EncodeList rest

/-- Standard base64 decoding of a digit list produced by `base64EncodeList`:
four digits to three bytes, with `=` padding ending the data. -/
def base64DecodeList : List Char → List Nat
  | a :: b :: c :: d :: rest =>
      if c = '=' then
        [b64Index a * 4 + b64Index b / 16]
      else if d = '=' then
        [b64Index a * 4 + b64Index b / 16, b64Index b % 16 * 16 + b64Index c / 4]
      else
        (b64Index a * 4 + b64Index b / 16) ::
        (b64Index b % 16 * 16 + b64Index c / 4) ::
        (b64Index c % 4 * 64 + b64Index d) :: base64DecodeList rest
  | _ => []

/-- The data URI produced by `FileReader.readAsDataURL` on a file: scheme,
media type, `;base64,` header, then the base64 payload. -/
def dataURLChars (f : JsFile) : List Char :=
  "data:".toList ++ f.type.toList ++ ";base64,".toList ++ base64EncodeList f.bytes

/-- JavaScript `str.trim()`: the string with leading and trailing whitespace
removed, computed on the character list. -/
def jsTrim (s : String) : String :=
  String.mk (((s.toList.dropWhile Char.isWhitespace).reverse.dropWhile
    Char.isWhitespace).reverse)

/-! ## String splitting (JavaScript `String.split`) -/

/-- JavaScript `str.split(sep)` for a one-character separator, on character
lists: splits at every occurrence, keeping empty segments. -/
def splitOnChar (sep : Char) : List Char → List (List Char)
  | [] => [[]]
  | c :: rest =>
      if c = sep then [] :: splitOnChar sep rest
      else
        match splitOnChar sep rest with
        | s :: ss => (c :: s) :: ss
        | [] => [[c]]

/-! ## The encoder `fileToGenerativePart` -/

/-- The inline-data payload of a request part: base64 data (a character list,
as it is cut out of the data URI) and a media type. -/
structure GenInlineData where
  data : List Char
  mimeType : String
  deriving DecidableEq, Repr

/-- The resolved value of `fileToGenerativePart`: `{ inlineData: { data, mimeType } }`. -/
structure GenPart where
  inlineData : GenInlineData
  deriving DecidableEq, Repr

/-- Embedding of `fileToGenerativePart` (src/index.tsx lines 30-50), with the
file-reader outcome passed as an environment parameter. On `onload` it takes
`result.split(',')[1]`; a missing or empty segment is falsy and rejects with
`Error("Failed to read file as base64.")`; otherwise it resolves
`{ inlineData: { data, mimeType: file.type } }`. On `onerror` it rejects with
the error event, which is not an `Error` instance. -/
def fileToGenerativePart (file : JsFile) (r : ReadOutcome) : Except Thrown GenPart :=
  match r with
  | .failure => .error .nonError
  | .success chars =>
      match (splitOnChar ',' chars).get? 1 with
      | some base64Data =>
          if base64Data.isEmpty then
            .error (.errorInstance "Failed to read file as base64.")
          else
            .ok ⟨⟨base64Data, file.type⟩⟩
      | none => .error (.errorInstance "Failed to read file as base64.")

/-! ## DOM / application state -/

/-- The observable DOM state the script manipulates, plus the one module-level
mutable variable `selectedFile`. Visibility is kept as the source sets it:
the loader via a `hidden` CSS class, the other elements via `style.display`. -/
structure UIState where
  loaderHidden : Bool
  generateBtnDisabled : Bool
  promptDisabled : Bool
  imageUploadDisabled : Bool
  promptValue : String
  imagePreviewSrc : String
  imagePreviewDisplay : String
  uploadPlaceholderDisplay : String
  resultImageSrc : String
  resultImageDisplay : String
  resultPlaceholderDisplay : String
  resultPlaceholderText : String
  resultPlaceholderColor : String
  selectedFile : Option JsFile
  deriving DecidableEq, Repr

/-- Embedding of `setLoading` (src/index.tsx lines 56-68): shows or hides the
loader and toggles the disabled flags; on leaving the loading state the
generate button is disabled exactly when no file is selected
(`generateBtn.disabled = !selectedFile`). -/
def setLoading (isLoading : Bool) (s : UIState) : UIState :=
  if isLoading then
    { s with loaderHidden := false, generateBtnDisabled := true,
             promptDisabled := true, imageUploadDisabled := true }
  else
    { s with loaderHidden := true, generateBtnDisabled := s.selectedFile.isNone,
             promptDisabled := false, imageUploadDisabled := false }

/-- Embedding of `displayError` (src/index.tsx lines 74-79): hides the result
image and shows the placeholder with text `Error: ` + message in the error
color. -/
def displayError (message : String) (s : UIState) : UIState :=
  { s with resultImageDisplay := "none",
           resultPlaceholderDisplay := "block",
           resultPlaceholderText := "Error: " ++ message,
           resultPlaceholderColor := "var(--error-color)" }

/-! ## The response model and the part scan -/

/-- The inline data of a response part: base64 data and media type. -/
structure InlineData where
  data : String
  mimeType : String
  deriving DecidableEq, Repr

/-- One part of the response content: it may carry text, inline data, both or
neither (the fields are independent in the service schema). -/
structure RespPart where
  text : Option String := none
  inlineData : Option InlineData := none
  deriving DecidableEq, Repr

/-- Effect of the `for part of parts` loop (src/index.tsx lines 135-144): the
loop acts on the first part whose `inlineData` field is set and breaks; this
function returns that first inline payload, or none. -/
def findInline : List RespPart → Option InlineData
  | [] => none
  | p :: rest =>
      match p.inlineData with
      | some d => some d
      | none => findInline rest

/-- One part of the outbound request contents. -/
inductive ReqPart where
  | image (data : List Char) (mimeType : String)
  | text (t : String)
  deriving DecidableEq, Repr

/-- Outcome of the `ai.models.generateContent` call: the promise resolves with
a response whose `candidates?.[0]?.content?.parts` chain yields an optional
parts list, or it rejects with a thrown value. -/
inductive NetOutcome where
  | success (parts : Option (List RespPart))
  | throw (e : Thrown)
  deriving DecidableEq, Repr

/-! ## Observable events of a submission -/

/-- Observable events of one run of the click handler, in order: busy-state
changes, error-presenter invocations, the issuing of the network request, and
the rendering of a result image. -/
inductive Event where
  | busySet (b : Bool)
  | errorShown (msg : String)
  | requestIssued (parts : List ReqPart)
  | imageRendered (src : String)
  deriving DecidableEq, Repr

/-- Whether an event sets the busy state to `b`. -/
def Event.isBusySet (b : Bool) : Event → Bool
  | .busySet b' => b' == b
  | _ => false

/-- Whether an event is an invocation of the error presenter. -/
def Event.isErrorShown : Event → Bool
  | .errorShown _ => true
  | _ => false

/-- Whether an event is the issuing of the network request. -/
def Event.isRequestIssued : Event → Bool
  | .requestIssued _ => true
  | _ => false

/-- The message `error instanceof Error ? error.message : "An unknown error
occurred."` computed in the catch block (src/index.tsx line 152). -/
def errorMessageOf : Thrown → String
  | .errorInstance m => m
  | .nonError => "An unknown error occurred."

/-! ## The click handler (request orchestrator) -/

/-- Embedding of the `generateBtn` click handler (src/index.tsx lines
107-157). The file-reader outcome and the network outcome are environment
parameters; the result is the final state together with the ordered trace of
observable events of this submission. -/
def clickHandler (rOut : ReadOutcome) (nOut : NetOutcome) (s : UIState) :
    UIState × List Event :=
  match s.selectedFile with
  | none =>
      (displayError "Please upload an image first." s,
       [.errorShown "Please upload an image first."])
  | some file =>
      let prompt := jsTrim s.promptValue
      if prompt = "" then
        (displayError "Please enter a prompt." s, [.errorShown "Please enter a prompt."])
      else
        let s1 := setLoading true s
        let s2 := { s1 with resultPlaceholderDisplay := "none", resultImageDisplay := "none" }
        match fileToGenerativePart file rOut with
        | .error e =>
            let msg := errorMessageOf e
            (setLoading false (displayError msg s2),
             [.busySet true, .errorShown msg, .busySet false])
        | .ok imagePart =>
            let reqParts := [ReqPart.image imagePart.inlineData.data imagePart.inlineData.mimeType,
                             ReqPart.text prompt]
            match nOut with
            | .throw e =>
                let msg := errorMessageOf e
                (setLoading false (displayError msg s2),
                 [.busySet true, .requestIssued reqParts, .errorShown msg, .busySet false])
            | .success respParts =>
                let parts := respParts.getD []
                match findInline parts with
                | some d =>
                    let src := "data:" ++ d.mimeType ++ ";base64," ++ d.data
                    let s3 := { s2 with resultImageSrc := src, resultImageDisplay := "block" }
                    (setLoading false s3,
                     [.busySet true, .requestIssued reqParts, .imageRendered src, .busySet false])
                | none =>
                    (setLoading false
                       (displayError "The model did not return an image. Please try a different prompt." s2),
                     [.busySet true, .requestIssued reqParts,
                      .errorShown "The model did not return an image. Please try a different prompt.",
                      .busySet false])

/-! ## The file-input change handler -/

/-- Embedding of the `imageUpload` change handler (src/index.tsx lines
88-101). `files` models `imageUpload.files` (possibly null). When a file is
present, `selectedFile` is set synchronously; the preview update and button
enabling happen in `onload`, so only when the preview read succeeds. -/
def changeHandler (rOut : ReadOutcome) (files : Option (List JsFile)) (s : UIState) : UIState :=
  match files with
  | some (f :: _) =>
      let s1 := { s with selectedFile := some f }
      match rOut with
      | .success chars =>
          { s1 with imagePreviewSrc := String.mk chars,
                    imagePreviewDisplay := "block",
                    uploadPlaceholderDisplay := "none",
                    generateBtnDisabled := false }
      | .failure => s1
  | _ => s

/-! ## Concrete sample inputs used to instantiate the theorems -/

/-- A concrete three-byte PNG-typed file (bytes of the ASCII text Hel). -/
def sampleFile : JsFile :=
  ⟨[72, 101, 108], "image/png"⟩

/-- A concrete idle state with a selected file and a non-blank prompt. -/
def baseState : UIState where
  loaderHidden := true
  generateBtnDisabled := false
  promptDisabled := false
  imageUploadDisabled := false
  promptValue := "grow the trees"
  imagePreviewSrc := ""
  imagePreviewDisplay := "none"
  uploadPlaceholderDisplay := "block"
  resultImageSrc := ""
  resultImageDisplay := "none"
  resultPlaceholderDisplay := "block"
  resultPlaceholderText := ""
  resultPlaceholderColor := ""
  selectedFile := some sampleFile

/-- The same state with no selected file. -/
def noFileState : UIState :=
  { baseState with selectedFile := none }

/-- The same state with a whitespace-only prompt. -/
def blankPromptState : UIState :=
  { baseState with promptValue := "   " }

/-! ## Lemmas about the base64 codec -/

theorem b64Alphabet_length : b64Alphabet.length = 64 := rfl

theorem b64Char_mem (n : Nat) (h : n < 64) : b64Char n ∈ b64Alphabet := by
  unfold b64Char
  rw [List.getD_eq_getElem _ _ (by rw [b64Alphabet_length]; exact h)]
  exact List.getElem_mem _

theorem b64Char_ne_eq (n : Nat) : b64Char n ≠ '=' := by
  by_cases h : n < 64
  · have hm := b64Char_mem n h
    intro he
    rw [he] at hm
    revert hm
    decide
  · unfold b64Char
    rw [List.getD_eq_default _ _ (by rw [b64Alphabet_length]; omega)]
    decide

theorem b64Char_ne_comma (n : Nat) : b64Char n ≠ ',' := by
  by_cases h : n < 64
  · have hm := b64Char_mem n h
    intro he
    rw [he] at hm
    revert hm
    decide
  · unfold b64Char
    rw [List.getD_eq_default _ _ (by rw [b64Alphabet_length]; omega)]
    decide

theorem b64Index_b64Char_fin : ∀ i : Fin 64, b64Index (b64Char i.val) = i.val := by decide

theorem b64Index_b64Char (n : Nat) (h : n < 64) : b64Index (b64Char n) = n :=
  b64Index_b64Char_fin ⟨n, h⟩

theorem base64_roundtrip : ∀ (l : List Nat), (∀ x ∈ l, x < 256) →
    base64DecodeList (base64EncodeList l) = l
  | [], _ => rfl
  | [a], h => by
      have ha : a < 256 := h a (by simp)
      simp only [base64EncodeList, base64DecodeList, if_true]
      rw [b64Index_b64Char _ (by omega), b64Index_b64Char _ (by omega)]
      simp only [List.cons.injEq, and_true]
      omega
  | [a, b], h => by
      have ha : a < 256 := h a (by simp)
      have hb : b < 256 := h b (by simp)
      simp only [base64EncodeList, base64DecodeList, if_true]
      rw [if_neg (b64Char_ne_eq (b % 16 * 4))]
      rw [b64Index_b64Char _ (by omega), b64Index_b64Char _ (by omega),
          b64Index_b64Char _ (by omega)]
      simp only [List.cons.injEq, and_true]
      exact ⟨by omega, by omega⟩
  | a :: b :: c :: rest, h => by
      have ha : a < 256 := h a (by simp)
      have hb : b < 256 := h b (by simp)
      have hc : c < 256 := h c (by simp)
      have ih := base64_roundtrip rest (fun x hx => h x (by simp [hx]))
      simp only [base64EncodeList, base64DecodeList]
      rw [if_neg (b64Char_ne_eq (b % 16 * 4 + c / 64)), if_neg (b64Char_ne_eq (c % 64))]
      rw [b64Index_b64Char _ (by omega), b64Index_b64Char _ (by omega),
          b64Index_b64Char _ (by omega), b64Index_b64Char _ (by omega), ih]
      simp only [List.cons.injEq, and_true]
      exact ⟨by omega, by omega, by omega⟩

theorem base64Encode_ne_comma : ∀ (l : List Nat), ∀ c ∈ base64EncodeList l, c ≠ ','
  | [] => by simp [base64EncodeList]
  | [a] => by
      intro c hc
      simp only [base64EncodeList, List.mem_cons, List.not_mem_nil, or_false] at hc
      rcases hc with rfl | rfl | rfl | rfl
      · exact b64Char_ne_comma _
      · exact b64Char_ne_comma _
      · decide
      · decide
  | [a, b] => by
      intro c hc
      simp only [base64EncodeList, List.mem_cons, List.not_mem_nil, or_false] at hc
      rcases hc with rfl | rfl | rfl | rfl
      · exact b64Char_ne_comma _
      · exact b64Char_ne_comma _
      · exact b64Char_ne_comma _
      · decide
  | a :: b :: c :: rest => by
      intro x hx
      simp only [base64EncodeList, List.mem_cons] at hx
      rcases hx with rfl | rfl | rfl | rfl | hx
      · exact b64Char_ne_comma _
      · exact b64Char_ne_comma _
      · exact b64Char_ne_comma _
      · exact b64Char_ne_comma _
      · exact base64Encode_ne_comma rest x hx

theorem comma_not_mem_base64Encode (l : List Nat) : ',' ∉ base64EncodeList l :=
  fun hm => base64Encode_ne_comma l ',' hm rfl

theorem base64Encode_isEmpty : ∀ (l : List Nat),
    (base64EncodeList l).isEmpty = l.isEmpty
  | [] => rfl
  | [_] => rfl
  | [_, _] => rfl
  | _ :: _ :: _ :: _ => rfl

/-! ## Lemmas about splitting -/

theorem splitOnChar_of_not_mem (sep : Char) : ∀ (l : List Char), sep ∉ l →
    splitOnChar sep l = [l]
  | [], _ => rfl
  | c :: rest, h => by
      have hc : c ≠ sep := fun he => h (he ▸ List.mem_cons_self c rest)
      have ih := splitOnChar_of_not_mem sep rest (fun hm => h (List.mem_cons_of_mem c hm))
      simp [splitOnChar, hc, ih]

theorem splitOnChar_append (sep : Char) : ∀ (pre post : List Char), sep ∉ pre →
    splitOnChar sep (pre ++ sep :: post) = pre :: splitOnChar sep post
  | [], post, _ => by simp [splitOnChar]
  | c :: pre, post, h => by
      have hc : c ≠ sep := fun he => h (he ▸ List.mem_cons_self c pre)
      have ih := splitOnChar_append sep pre post (fun hm => h (List.mem_cons_of_mem c hm))
      simp [splitOnChar, hc, ih]

theorem dataURLChars_eq (f : JsFile) :
    dataURLChars f =
      ("data:".toList ++ f.type.toList ++ ";base64".toList) ++
        ',' :: base64EncodeList f.bytes := by
  show "data:".toList ++ f.type.toList ++ ";base64,".toList ++ base64EncodeList f.bytes = _
  have h : ";base64,".toList = ";base64".toList ++ [','] := rfl
  rw [h]
  simp [List.append_assoc]

theorem fileToGenerativePart_dataURL (f : JsFile) (ht : ',' ∉ f.type.toList) :
    fileToGenerativePart f (.success (dataURLChars f)) =
      if f.bytes.isEmpty then .error (.errorInstance "Failed to read file as base64.")
      else .ok ⟨⟨base64EncodeList f.bytes, f.type⟩⟩ := by
  have hpre : ',' ∉ ("data:".toList ++ f.type.toList ++ ";base64".toList) := by
    simp only [List.mem_append, not_or]
    refine ⟨⟨by decide, ht⟩, by decide⟩
  rw [show fileToGenerativePart f (.success (dataURLChars f)) =
        (match (splitOnChar ',' (dataURLChars f)).get? 1 with
         | some base64Data =>
             if base64Data.isEmpty then
               Except.error (.errorInstance "Failed to read file as base64.")
             else .ok ⟨⟨base64Data, f.type⟩⟩
         | none => .error (.errorInstance "Failed to read file as base64.")) from rfl,
      dataURLChars_eq, splitOnChar_append _ _ _ hpre,
      splitOnChar_of_not_mem _ _ (comma_not_mem_base64Encode f.bytes)]
  simp only [List.get?]
  rw [← base64Encode_isEmpty]

/-! ## Claim theorems -/

/-- C1: on a click with no selected image, the handler shows the failure
message Please upload an image first. (regardless of the prompt, so the
missing-image check comes before the empty-prompt check); with an image but a
prompt that trims to empty it shows Please enter a prompt.; in both cases the
returned trace is a single error-presenter event, so the busy indicator was
never shown and no network request was constructed or issued, and the state
change is exactly the error display. -/
theorem C1_validation_rejects_before_network (s : UIState) (rOut : ReadOutcome)
    (nOut : NetOutcome) :
    (s.selectedFile = none →
      clickHandler rOut nOut s =
        (displayError "Please upload an image first." s,
         [Event.errorShown "Please upload an image first."]))
    ∧ (∀ f, s.selectedFile = some f → jsTrim s.promptValue = "" →
      clickHandler rOut nOut s =
        (displayError "Please enter a prompt." s,
         [Event.errorShown "Please enter a prompt."])) := by
  constructor
  · intro h
    simp [clickHandler, h]
  · intro f hf hp
    simp [clickHandler, hf, hp]

/-- Witness for C1 at the concrete states: one with no file (and a non-empty
prompt, showing the image check fires first) and one with a file but a
whitespace-only prompt. -/
theorem C1_validation_rejects_before_network_witness :
    clickHandler .failure (.throw .nonError) noFileState =
      (displayError "Please upload an image first." noFileState,
       [Event.errorShown "Please upload an image first."])
    ∧ clickHandler .failure (.throw .nonError) blankPromptState =
      (displayError "Please enter a prompt." blankPromptState,
       [Event.errorShown "Please enter a prompt."]) :=
  ⟨(C1_validation_rejects_before_network noFileState .failure (.throw .nonError)).1 rfl,
   (C1_validation_rejects_before_network blankPromptState .failure (.throw .nonError)).2
     sampleFile rfl (by decide)⟩

/-- C7: setLoading true shows the loader and disables the generate button, the
prompt input and the file input unconditionally; setLoading false hides the
loader, re-enables the prompt and file inputs unconditionally, and re-enables
the generate button exactly when a selected image exists. -/
theorem C7_setLoading_toggles (s : UIState) :
    (setLoading true s).loaderHidden = false
    ∧ (setLoading true s).generateBtnDisabled = true
    ∧ (setLoading true s).promptDisabled = true
    ∧ (setLoading true s).imageUploadDisabled = true
    ∧ (setLoading false s).loaderHidden = true
    ∧ (setLoading false s).promptDisabled = false
    ∧ (setLoading false s).imageUploadDisabled = false
    ∧ ((setLoading false s).generateBtnDisabled = false ↔ s.selectedFile.isSome) := by
  refine ⟨rfl, rfl, rfl, rfl, rfl, rfl, rfl, ?_⟩
  show s.selectedFile.isNone = false ↔ s.selectedFile.isSome
  cases s.selectedFile <;> simp

/-- C9: setLoading is idempotent: for each Boolean and each state, applying it
twice yields the same state as applying it once (the selection is unchanged by
the first call, so the generate-button computation agrees). -/
theorem C9_setLoading_idempotent (b : Bool) (s : UIState) :
    setLoading b (setLoading b s) = setLoading b s := by
  cases b <;> rfl

/-- C10: when the file-input change event fires with an absent or empty file
list, the handler changes nothing: the whole state, including the previously
selected file, the preview display and the generate-button flag, is returned
unchanged, for every reader outcome. -/
theorem C10_cancelled_selection_noop (rOut : ReadOutcome) (s : UIState) :
    changeHandler rOut none s = s ∧ changeHandler rOut (some []) s = s :=
  ⟨rfl, rfl⟩

/-- C2: after a received response, the scan selects the first part carrying
inline data (later parts, inline or not, are ignored), the result image source
becomes the data URI built as data: + mimeType + ;base64, + data, and the
image is shown; when no part carries inline data the outcome is the failure
message The model did not return an image. Please try a different prompt.
shown by the presenter (not a thrown error); on the two-part example with a
text part then an inline png part the source is data:image/png;base64,AAAA. -/
theorem C2_first_inline_part_selected (s : UIState) (f : JsFile) (rOut : ReadOutcome)
    (gp : GenPart) (ps : List RespPart)
    (hf : s.selectedFile = some f) (hp : ¬ jsTrim s.promptValue = "")
    (hr : fileToGenerativePart f rOut = .ok gp) :
    (∀ d, findInline ps = some d →
      (clickHandler rOut (.success (some ps)) s).1.resultImageSrc =
          "data:" ++ d.mimeType ++ ";base64," ++ d.data
        ∧ (clickHandler rOut (.success (some ps)) s).1.resultImageDisplay = "block")
    ∧ (findInline ps = none →
      (clickHandler rOut (.success (some ps)) s).1.resultPlaceholderText =
          "Error: " ++ "The model did not return an image. Please try a different prompt."
        ∧ (clickHandler rOut (.success (some ps)) s).1.resultPlaceholderDisplay = "block")
    ∧ (∀ (p : RespPart) (rest : List RespPart) (d : InlineData),
        p.inlineData = some d → findInline (p :: rest) = some d)
    ∧ findInline [⟨some "desc", none⟩, ⟨none, some ⟨"AAAA", "image/png"⟩⟩] =
        some ⟨"AAAA", "image/png"⟩
    ∧ (clickHandler rOut
        (.success (some [⟨some "desc", none⟩, ⟨none, some ⟨"AAAA", "image/png"⟩⟩]))
        s).1.resultImageSrc = "data:image/png;base64,AAAA" := by
  refine ⟨?_, ?_, ?_, rfl, ?_⟩
  · intro d hd
    simp [clickHandler, hf, hp, hr, hd, setLoading]
  · intro hn
    simp [clickHandler, hf, hp, hr, hn, setLoading, displayError]
  · intro p rest d hd
    simp [findInline, hd]
  · simp [clickHandler, hf, hp, hr, findInline, setLoading]

/-- Witness for C2 at a concrete state, read result and response. -/
theorem C2_first_inline_part_selected_witness :
    (clickHandler (.success ("data:image/png;base64,SGVs".toList))
        (.success (some [⟨some "desc", none⟩, ⟨none, some ⟨"AAAA", "image/png"⟩⟩]))
        baseState).1.resultImageSrc = "data:image/png;base64,AAAA" :=
  (C2_first_inline_part_selected baseState sampleFile
      (.success ("data:image/png;base64,SGVs".toList))
      ⟨⟨"SGVs".toList, "image/png"⟩⟩
      [⟨some "desc", none⟩, ⟨none, some ⟨"AAAA", "image/png"⟩⟩]
      rfl (by decide) rfl).2.2.2.2

/-- C3: on a read result holding a comma (a data URI), the encoder resolves
with the segment between the first comma and the next comma or the end, which
for a one-comma read result is the substring after the first comma, paired
with the media type of the file; when that segment is empty, or the read
result has no comma at all (for example an empty read result), it rejects with
Error Failed to read file as base64. instead of resolving. -/
theorem C3_encoder_extracts_payload (f : JsFile) (pre post : List Char)
    (hpre : ',' ∉ pre) (hpost : ',' ∉ post) :
    (post ≠ [] →
      fileToGenerativePart f (.success (pre ++ ',' :: post)) = .ok ⟨⟨post, f.type⟩⟩)
    ∧ (post = [] →
      fileToGenerativePart f (.success (pre ++ ',' :: post)) =
        .error (.errorInstance "Failed to read file as base64."))
    ∧ fileToGenerativePart f (.success pre) =
        .error (.errorInstance "Failed to read file as base64.") := by
  refine ⟨?_, ?_, ?_⟩
  · intro hne
    simp [fileToGenerativePart, splitOnChar_append ',' pre post hpre,
      splitOnChar_of_not_mem ',' post hpost, List.isEmpty_iff, hne]
  · intro hnil
    subst hnil
    simp [fileToGenerativePart, splitOnChar_append ',' pre [] hpre, splitOnChar]
  · simp [fileToGenerativePart, splitOnChar_of_not_mem ',' pre hpre]

/-- Witness for C3 at a concrete file and read result, in both the resolving
and the no-comma rejecting cases. -/
theorem C3_encoder_extracts_payload_witness :
    fileToGenerativePart sampleFile (.success ("data:image/png;base64".toList ++
        ',' :: "SGVs".toList)) = .ok ⟨⟨"SGVs".toList, "image/png"⟩⟩
    ∧ fileToGenerativePart sampleFile (.success ("data:image/png;base64".toList)) =
        .error (.errorInstance "Failed to read file as base64.") :=
  ⟨(C3_encoder_extracts_payload sampleFile "data:image/png;base64".toList
      "SGVs".toList (by decide) (by decide)).1 (by decide),
   (C3_encoder_extracts_payload sampleFile "data:image/png;base64".toList
      "SGVs".toList (by decide) (by decide)).2.2⟩

/-- C8: for a file whose bytes are bytes (below 256) and whose media type has
no comma, the encoder applied to the data URI the reader produces for that
file resolves with exactly the base64 encoding of the bytes, and decoding that
base64 string yields back exactly the original byte list. -/
theorem C8_base64_roundtrip (f : JsFile) (hb : ∀ x ∈ f.bytes, x < 256)
    (ht : ',' ∉ f.type.toList) (hne : f.bytes ≠ []) :
    fileToGenerativePart f (.success (dataURLChars f)) =
        .ok ⟨⟨base64EncodeList f.bytes, f.type⟩⟩
    ∧ base64DecodeList (base64EncodeList f.bytes) = f.bytes := by
  constructor
  · rw [fileToGenerativePart_dataURL f ht, if_neg]
    simp [List.isEmpty_iff, hne]
  · exact base64_roundtrip f.bytes hb

/-- Witness for C8 at the concrete sample file. -/
theorem C8_base64_roundtrip_witness :
    fileToGenerativePart sampleFile (.success (dataURLChars sampleFile)) =
        .ok ⟨⟨base64EncodeList sampleFile.bytes, "image/png"⟩⟩
    ∧ base64DecodeList (base64EncodeList sampleFile.bytes) = sampleFile.bytes :=
  C8_base64_roundtrip sampleFile (by decide) (by decide) (by decide)

/-- C4: for every submission that passes validation and for every reader and
network outcome, the event trace sets the busy state to true exactly once and
to false exactly once; the very first event is entering the busy state
(immediately after validation) and the very last event is clearing it, on all
four outcomes: rendered image, no-image failure, encoding failure, and a
rejected network call. -/
theorem C4_busy_entered_and_cleared_once (s : UIState) (f : JsFile)
    (rOut : ReadOutcome) (nOut : NetOutcome)
    (hf : s.selectedFile = some f) (hp : ¬ jsTrim s.promptValue = "") :
    ((clickHandler rOut nOut s).2.filter (Event.isBusySet true)).length = 1
    ∧ ((clickHandler rOut nOut s).2.filter (Event.isBusySet false)).length = 1
    ∧ (clickHandler rOut nOut s).2.head? = some (Event.busySet true)
    ∧ (clickHandler rOut nOut s).2.getLast? = some (Event.busySet false) := by
  rcases hr : fileToGenerativePart f rOut with e | gp
  · simp [clickHandler, hf, hp, hr, Event.isBusySet, List.getLast?]
  · cases nOut with
    | throw e =>
        simp [clickHandler, hf, hp, hr, Event.isBusySet, List.getLast?]
    | success respParts =>
        rcases hfi : findInline (respParts.getD []) with _ | d
        · simp [clickHandler, hf, hp, hr, hfi, Event.isBusySet, List.getLast?]
        · simp [clickHandler, hf, hp, hr, hfi, Event.isBusySet, List.getLast?]

/-- Witness for C4 at the concrete base state with a failing read. -/
theorem C4_busy_entered_and_cleared_once_witness :
    ((clickHandler .failure (.throw .nonError) baseState).2.filter
        (Event.isBusySet true)).length = 1
    ∧ ((clickHandler .failure (.throw .nonError) baseState).2.filter
        (Event.isBusySet false)).length = 1
    ∧ (clickHandler .failure (.throw .nonError) baseState).2.head? =
        some (Event.busySet true)
    ∧ (clickHandler .failure (.throw .nonError) baseState).2.getLast? =
        some (Event.busySet false) :=
  C4_busy_entered_and_cleared_once baseState sampleFile .failure (.throw .nonError)
    rfl (by decide)

/-- C5 corrected, counterexample part: with an image selected and a non-blank
prompt, when the platform read operation itself errors the encoder rejects
with the error event, a value that is not an Error instance and carries no
message at all; the message the presenter then shows is the generic
An unknown error occurred. produced by the catch normalization, so it is not a
message of the encoder. -/
theorem C5_read_error_shows_generic_message :
    fileToGenerativePart sampleFile .failure = .error .nonError
    ∧ thrownMessage .nonError = none
    ∧ (clickHandler .failure (.throw .nonError) baseState).1.resultPlaceholderText =
        "Error: " ++ "An unknown error occurred."
    ∧ ((clickHandler .failure (.throw .nonError) baseState).2.filter
        Event.isErrorShown) = [Event.errorShown "An unknown error occurred."] := by
  refine ⟨rfl, rfl, ?_, ?_⟩
  · simp [clickHandler, baseState, sampleFile, jsTrim, fileToGenerativePart,
      errorMessageOf, setLoading, displayError]
  · simp [clickHandler, baseState, sampleFile, jsTrim, fileToGenerativePart,
      errorMessageOf, Event.isErrorShown]

/-- C5 as amended: every encoder failure makes the submission transition to
failure with the presenter invoked; in the decode-failure branch the displayed
message is the encoder message Failed to read file as base64., while in the
platform-read-error branch the rejected value is the event, not an Error
instance, so the displayed message is the generic An unknown error occurred.
rather than a message of the encoder. -/
theorem C5_encoder_failure_messages (s : UIState) (f : JsFile) (nOut : NetOutcome)
    (hf : s.selectedFile = some f) (hp : ¬ jsTrim s.promptValue = "") :
    (∀ chars, fileToGenerativePart f (.success chars) =
        .error (.errorInstance "Failed to read file as base64.") →
      (clickHandler (.success chars) nOut s).1.resultPlaceholderText =
          "Error: " ++ "Failed to read file as base64."
        ∧ ((clickHandler (.success chars) nOut s).2.filter Event.isErrorShown) =
            [Event.errorShown "Failed to read file as base64."])
    ∧ ((clickHandler .failure nOut s).1.resultPlaceholderText =
          "Error: " ++ "An unknown error occurred."
        ∧ ((clickHandler .failure nOut s).2.filter Event.isErrorShown) =
            [Event.errorShown "An unknown error occurred."]) := by
  constructor
  · intro chars hr
    constructor
    · simp [clickHandler, hf, hp, hr, errorMessageOf, setLoading, displayError]
    · simp [clickHandler, hf, hp, hr, errorMessageOf, Event.isErrorShown]
  · have hr : fileToGenerativePart f .failure = .error .nonError := rfl
    constructor
    · simp [clickHandler, hf, hp, hr, errorMessageOf, setLoading, displayError]
    · simp [clickHandler, hf, hp, hr, errorMessageOf, Event.isErrorShown]

/-- Witness for the amended C5 at the concrete base state: a read result with
no comma takes the decode-failure branch, and a failing read takes the
platform-error branch. -/
theorem C5_encoder_failure_messages_witness :
    (clickHandler (.success "garbage".toList) (.throw .nonError)
        baseState).1.resultPlaceholderText =
      "Error: " ++ "Failed to read file as base64."
    ∧ (clickHandler .failure (.throw .nonError) baseState).1.resultPlaceholderText =
      "Error: " ++ "An unknown error occurred." :=
  ⟨((C5_encoder_failure_messages baseState sampleFile (.throw .nonError) rfl
      (by decide)).1 "garbage".toList rfl).1,
   ((C5_encoder_failure_messages baseState sampleFile (.throw .nonError) rfl
      (by decide)).2).1⟩

/-- C6: every value thrown during a validated submission is normalized by the
catch block: an Error instance is displayed with its own message and any other
value with the single generic message An unknown error occurred.; in either
case the trace holds exactly one error-presenter invocation, carrying exactly
that normalized message, whether the throw came from the encoder or from the
network call. -/
theorem C6_thrown_values_normalized (s : UIState) (f : JsFile) (rOut : ReadOutcome)
    (nOut : NetOutcome) (gp : GenPart) (e : Thrown)
    (hf : s.selectedFile = some f) (hp : ¬ jsTrim s.promptValue = "") :
    (errorMessageOf .nonError = "An unknown error occurred."
      ∧ ∀ m, errorMessageOf (.errorInstance m) = m)
    ∧ (∀ e', fileToGenerativePart f rOut = .error e' →
        ((clickHandler rOut nOut s).2.filter Event.isErrorShown) =
          [Event.errorShown (errorMessageOf e')])
    ∧ (fileToGenerativePart f rOut = .ok gp →
        ((clickHandler rOut (.throw e) s).2.filter Event.isErrorShown) =
          [Event.errorShown (errorMessageOf e)]) := by
  refine ⟨⟨rfl, fun m => rfl⟩, ?_, ?_⟩
  · intro e' hr
    simp [clickHandler, hf, hp, hr, Event.isErrorShown]
  · intro hr
    simp [clickHandler, hf, hp, hr, Event.isErrorShown]

/-- Witness for C6 at the concrete base state: a failing read rejects with the
non-Error event and the presenter shows the generic message once. -/
theorem C6_thrown_values_normalized_witness :
    ((clickHandler .failure (.throw (.errorInstance "boom")) baseState).2.filter
        Event.isErrorShown) =
      [Event.errorShown (errorMessageOf .nonError)] :=
  (C6_thrown_values_normalized baseState sampleFile .failure
      (.throw (.errorInstance "boom")) ⟨⟨"SGVs".toList, "image/png"⟩⟩
      (.errorInstance "boom") rfl (by decide)).2.1 .nonError rfl

end TreeScape
